import Mathlib

/-!
ALBA: sync mode, fork advertiser, peer summaries and the mobile node configuration.

A shallow embedding of

* `eth/sync_test.go`   (the sync-mode flag `snapSync` of the handler),
* `eth/discovery.go`   (`albaEntry`, `startAlbaEntryUpdate`, `currentAlbaEntry`),
* `eth/peer.go`        (`albaPeer.info`, `snapPeer.info`),
* `eth/api_backend.go` (`AlbaAPIBackend.SetHead`),
* `mobile/geth.go`     (`NodeConfig`, `NewNodeConfig`, `NewNode`).

Go values are embedded as follows: `int`, `int64` and `*big.Int` are `Int`,
`uint`, `uint32` and `uint64` are `Nat` (reduced modulo the width where a
conversion can wrap), pointers that may be nil are `Option`, a function that
returns `(value, error)` returns `Except`, and a method that runs against a
receiver returns the receiver next to its result, so that what it leaves
unchanged can be stated.
-/

namespace alba

/-! ## Shared declarations -/

/-- Type `common.Hash`: a block hash, 32 bytes. Only the declaration is used. -/
structure Hash where
  bytes : List Nat
deriving DecidableEq, Repr

/-- Type `downloader.SyncMode` with its three modes. -/
inductive SyncMode where
  | FullSync
  | SnapSync
  | LightSync
deriving DecidableEq, Repr

/-- Type `alba.Peer` of the protocol package, reduced to what the files read:
the identity, the negotiated version and the advertised head and total
difficulty (the chain weight). -/
structure Peer where
  id : Nat
  version : Nat
  head : Hash
  td : Int
deriving DecidableEq, Repr

/-- Method `Peer.Version`. -/
def Peer.Version (p : Peer) : Nat := p.version

/-- Method `Peer.Head`: the advertised head hash and total difficulty. -/
def Peer.Head (p : Peer) : Hash × Int := (p.head, p.td)

/-- Type `core.BlockChain`, reduced to the three getters `discovery.go` calls:
`Config()`, `Genesis().Hash()` and `CurrentHeader().Number`. -/
structure BlockChain (Cfg : Type) where
  config : Cfg
  genesisHash : Hash
  currentHeaderNumber : Nat

/-- Method `big.Int.Uint64`: the low 64 bits of the number. -/
def Uint64 (n : Nat) : Nat := n % 2 ^ 64

/-! ## The sync orchestrator (`handler.snapSync`, `doSync`) -/

/-- Modelled from the spec: a sync operation (section 3), the target peer and
the mode of the attempt; the test builds one with `peerToSyncOp`. -/
structure chainSyncOp where
  mode : SyncMode
  peer : Peer
deriving DecidableEq, Repr

/-- Modelled from the spec: `peerToSyncOp(mode, peer)` as the test calls it,
the operation for a mode and a peer. -/
def peerToSyncOp (mode : SyncMode) (p : Peer) : chainSyncOp :=
  { mode := mode, peer := p }

/-- Modelled from the spec: the handler (its source file lies outside these
files), reduced to the state of the sync orchestrator of section 4.4: the
atomic `snapSync` flag the test reads (1 = `SnapshotSync`, 0 = `FullSync`), the
peer registry in insertion order, and the peer whose attempt just failed. -/
structure handler where
  snapSync : Nat
  peers : List Peer
  failed : Option Nat
deriving DecidableEq, Repr

/-- Modelled from the spec: the startup seed of the sync mode (section 4.4,
"mode is seeded from local chain state at startup, not defaulted blindly"):
a handler created over a chain whose head is still the genesis block starts in
`SnapshotSync`, a handler over a chain that holds imported blocks in `FullSync`. -/
def newHandler {Cfg : Type} (chain : BlockChain Cfg) : handler :=
  { snapSync := if chain.currentHeaderNumber = 0 then 1 else 0
    peers := []
    failed := none }

/-- Modelled from the spec: the test chain of `newTestHandlerWithBlocks`: the
genesis block followed by `blocks` imported blocks. -/
def testChain (blocks : Nat) : BlockChain Unit :=
  { config := (), genesisHash := ⟨[]⟩, currentHeaderNumber := blocks }

/-- Modelled from the spec: `newTestHandlerWithBlocks(blocks)`, a handler over
a chain with `blocks` imported blocks. -/
def newTestHandlerWithBlocks (blocks : Nat) : handler :=
  newHandler (testChain blocks)

/-- Modelled from the spec: `newTestHandler()`, a handler over a pristine chain. -/
def newTestHandler : handler :=
  newTestHandlerWithBlocks 0

/-- Modelled from the spec: the downloader collaborator of section 6,
`RunSync(peer, mode) -> (imported, err)`. -/
abbrev Downloader := Peer → SyncMode → Bool × Option String

/-- Modelled from the spec: `doSync` (section 4.4, steps 3 to 5). The attempt is
handed to the downloader; on failure the error is returned and nothing is
written; on success the mode is flipped to `FullSync` when it was
`SnapshotSync` and the attempt imported real blocks. -/
def doSync (dl : Downloader) (h : handler) (op : chainSyncOp) : handler × Option String :=
  match dl op.peer op.mode with
  | (_, some err) => (h, some err)
  | (imported, none) =>
    if h.snapSync = 1 ∧ imported = true then ({ h with snapSync := 0 }, none) else (h, none)

/-- Modelled from the spec: `PeerByHighestWeight(excluding)` of section 4.1, the
registry's `peerWithHighestTD`: the live entry of greatest weight outside the
excluded identifiers, the earliest registered winning a tie. -/
def peerWithHighestTD (ps : List Peer) (excluding : List Nat) : Option Peer :=
  (ps.filter (fun p => !excluding.contains p.id)).foldl
    (fun best p =>
      match best with
      | none => some p
      | some b => if b.td < p.td then some p else some b)
    none

/-- Modelled from the spec: the sync mode in effect, read from the flag. -/
def handler.mode (h : handler) : SyncMode :=
  if h.snapSync = 1 then SyncMode.SnapSync else SyncMode.FullSync

/-- Modelled from the spec: one orchestration cycle (section 4.4). With no
registered peer the cycle does nothing; otherwise the best peer outside the
one that just failed is selected for this cycle, a sync operation with the
current mode is run, and a failure is recorded for the next cycle. -/
def cycle (dl : Downloader) (h : handler) : handler :=
  if h.peers.isEmpty then h
  else
    match peerWithHighestTD h.peers h.failed.toList with
    | none => { h with failed := none }
    | some p =>
      match doSync dl { h with failed := none } (peerToSyncOp h.mode p) with
      | (h', none) => h'
      | (h', some _) => { h' with failed := some p.id }

/-- Modelled from the spec: what drives the orchestrator's state: a peer
registers, a peer unregisters, or a cycle runs against the downloader's
behaviour at that time. -/
inductive SyncEvent where
  | register (p : Peer)
  | unregister (id : Nat)
  | cycle (dl : Downloader)

/-- Modelled from the spec: one step of the orchestrator's state machine.
`Register` rejects a duplicate identity and keeps the existing entry,
`Unregister` is a no-op on an unknown identifier (section 4.1). -/
def syncStep (h : handler) : SyncEvent → handler
  | SyncEvent.register p =>
    if h.peers.any (fun q => q.id == p.id) then h else { h with peers := h.peers ++ [p] }
  | SyncEvent.unregister id => { h with peers := h.peers.filter (fun q => q.id != id) }
  | SyncEvent.cycle dl => cycle dl h

/-- Modelled from the spec: the orchestrator run over a sequence of events. -/
def syncRun (h : handler) (evs : List SyncEvent) : handler :=
  evs.foldl syncStep h

/-! ### The scenario of `testSnapSyncDisabling` -/

/-- The peer the handler over 1024 blocks is to the empty handler. -/
def fullPeer : Peer :=
  { id := 2, version := 66, head := { bytes := [] }, td := 1024 }

/-- The empty handler of the test once the full peer has registered. -/
def pairedHandler : handler :=
  syncStep newTestHandler (SyncEvent.register fullPeer)

/-- A downloader whose attempts succeed and import real blocks. -/
def importingDownloader : Downloader := fun _ _ => (true, none)

/-- A downloader whose attempts fail. -/
def failingDownloader : Downloader := fun _ _ => (false, some "timeout")

/-! ## The fork advertiser (`discovery.go`) -/

/-- Type `forkid.ID`: the fork identifier of EIP-2124, a 4-byte checksum of
the genesis hash and the passed forks, and the number of the next fork. -/
structure forkid.ID where
  Hash : List Nat
  Next : Nat
deriving DecidableEq, Repr

/-- Modelled from the spec: type `rlp.RawValue`, an undecoded RLP item (the
`rlp` package lies outside these files); an item is kept as the tree it
encodes, a byte string or a list of items. -/
inductive RawValue where
  | str (bytes : List Nat)
  | list (items : List RawValue)

/-- The "alba" ENR entry `albaEntry`: the fork identifier, and the tail that
takes every further element of the encoded list. -/
structure albaEntry where
  ForkID : forkid.ID
  Rest : List RawValue

/-- Method `albaEntry.ENRKey`. -/
def albaEntry.ENRKey (_e : albaEntry) : String := "alba"

/-- Type `Alba`, reduced to the block chain `discovery.go` reads. -/
structure Alba (Cfg : Type) where
  blockchain : BlockChain Cfg

/-- Method `Alba.currentAlbaEntry`. `NewID` stands for `forkid.NewID`, whose
package lies outside these files. -/
def currentAlbaEntry {Cfg : Type} (NewID : Cfg → Hash → Nat → forkid.ID) (alba : Alba Cfg) :
    albaEntry :=
  { ForkID := NewID alba.blockchain.config alba.blockchain.genesisHash
      (Uint64 alba.blockchain.currentHeaderNumber)
    Rest := [] }

/-- Type `enode.LocalNode`, reduced to the calls of `Set` it has received, the
oldest first, each with the key the entry was stored under. -/
structure LocalNode where
  sets : List (String × albaEntry)

/-- Method `LocalNode.Set`: store the entry under its key. -/
def LocalNode.Set (ln : LocalNode) (e : albaEntry) : LocalNode :=
  { sets := ln.sets ++ [(e.ENRKey, e)] }

/-- The entry a local node publishes under a key: the one stored last. -/
def LocalNode.published (ln : LocalNode) (key : String) : Option albaEntry :=
  ((ln.sets.filter (fun kv => kv.1 == key)).getLast?).map Prod.snd

/-- State of the goroutine `startAlbaEntryUpdate` starts: the node object whose
chain it reads (the chain changes under it), the local node it writes, whether
the loop is still running, and how often `sub.Unsubscribe` has been called. -/
structure UpdateLoop (Cfg : Type) where
  alba : Alba Cfg
  ln : LocalNode
  running : Bool
  unsubscribed : Nat

/-- What happens around the loop: the chain changes (the environment's move),
or the loop's `select` receives from `newHead` (with the event's payload, the
number of the block the event announces) or from `sub.Err()`. -/
inductive UpdateEvent (Cfg : Type) where
  | chain (bc : BlockChain Cfg)
  | newHead (payload : Nat)
  | subErr

/-- Function `startAlbaEntryUpdate`: subscribe and start the loop. -/
def startAlbaEntryUpdate {Cfg : Type} (alba : Alba Cfg) (ln : LocalNode) : UpdateLoop Cfg :=
  { alba := alba, ln := ln, running := true, unsubscribed := 0 }

/-- One iteration of the loop of `startAlbaEntryUpdate`. A head event makes the
loop call `ln.Set` with the entry computed from the chain as it is now (the
payload is dropped by `case <-newHead`); the source calls `currentEthEntry`
there, which the file does not define: it is read as `currentAlbaEntry`, the
only entry constructor of the file. An error of the subscription makes the
goroutine return, which runs the deferred `sub.Unsubscribe()`. A loop that has
returned receives nothing. -/
def updateStep {Cfg : Type} (NewID : Cfg → Hash → Nat → forkid.ID) (s : UpdateLoop Cfg) :
    UpdateEvent Cfg → UpdateLoop Cfg
  | UpdateEvent.chain bc => { s with alba := { blockchain := bc } }
  | UpdateEvent.newHead _ =>
    if s.running then { s with ln := s.ln.Set (currentAlbaEntry NewID s.alba) } else s
  | UpdateEvent.subErr =>
    if s.running then { s with running := false, unsubscribed := s.unsubscribed + 1 } else s

/-- The loop run over a sequence of events. -/
def updateRun {Cfg : Type} (NewID : Cfg → Hash → Nat → forkid.ID) (s : UpdateLoop Cfg)
    (evs : List (UpdateEvent Cfg)) : UpdateLoop Cfg :=
  evs.foldl (updateStep NewID) s

/-- Whether an event is a received head event. -/
def UpdateEvent.isNewHead {Cfg : Type} : UpdateEvent Cfg → Bool
  | UpdateEvent.newHead _ => true
  | _ => false

/-- Whether an event is the subscription's error. -/
def UpdateEvent.isSubErr {Cfg : Type} : UpdateEvent Cfg → Bool
  | UpdateEvent.subErr => true
  | _ => false

/-! ### An instance for evaluation -/

/-- An instance of `forkid.NewID` over a configuration that is the block of
the one scheduled fork: the checksum is cut from the genesis hash, the next
fork is the scheduled block while the head is below it, and 0 after. -/
def sampleNewID (fork : Nat) (genesis : Hash) (head : Nat) : forkid.ID :=
  { Hash := genesis.bytes.take 4, Next := if head < fork then fork else 0 }

/-- A chain with a fork scheduled at block 100 and the head at a given block. -/
def sampleChain (head : Nat) : BlockChain Nat :=
  { config := 100, genesisHash := { bytes := [222, 173, 190, 239, 1] }, currentHeaderNumber := head }

/-- The loop started over the sample chain with head 7 and nothing published. -/
def sampleLoop : UpdateLoop Nat :=
  startAlbaEntryUpdate { blockchain := sampleChain 7 } { sets := [] }

/-! ### The encoding of the entry -/

/-- Modelled from the spec: the RLP integer of a `uint64`, its big-endian bytes
without leading zeros (`forkId: { hash: 4 bytes, next: uint64 }`, section 6). -/
def putUint (n : Nat) : List Nat := (Nat.digits 256 n).reverse

/-- Modelled from the spec: reading a `uint64`: at most eight bytes, no leading
zero. -/
def decodeUint (bs : List Nat) : Option Nat :=
  if 8 < bs.length then none
  else if bs.head? = some 0 then none
  else some (Nat.ofDigits 256 bs.reverse)

/-- Modelled from the spec: the encoding of a fork identifier, the list of its
two fields. -/
def encodeForkID (id : forkid.ID) : RawValue :=
  RawValue.list [RawValue.str id.Hash, RawValue.str (putUint id.Next)]

/-- Modelled from the spec: decoding a fork identifier: a list of exactly two
byte strings, the first of four bytes, the second a `uint64`. -/
def decodeForkID : RawValue → Option forkid.ID
  | RawValue.list [RawValue.str h, RawValue.str n] =>
    if h.length = 4 then (decodeUint n).map (fun next => { Hash := h, Next := next }) else none
  | _ => none

/-- Modelled from the spec: the encoding of the entry: the list of the fork
identifier followed by the elements of the tail. -/
def encodeEntry (e : albaEntry) : RawValue :=
  RawValue.list (encodeForkID e.ForkID :: e.Rest)

/-- Modelled from the spec: decoding the entry (section 6, "readers must ignore
unknown trailing data rather than fail"): the first element of the list is
the fork identifier, every further element goes to `Rest` undecoded. -/
def decodeEntry : RawValue → Option albaEntry
  | RawValue.list (x :: rest) => (decodeForkID x).map (fun id => { ForkID := id, Rest := rest })
  | _ => none

/-! ## Peer summaries (`peer.go`) -/

/-- Type `snap.Peer` of the protocol package, reduced to identity and version. -/
structure snap.Peer where
  id : Nat
  version : Nat
deriving DecidableEq, Repr

/-- Method `snap.Peer.Version`. -/
def snap.Peer.Version (p : snap.Peer) : Nat := p.version

/-- Summary `albaPeerInfo`. -/
structure albaPeerInfo where
  Version : Nat
  Difficulty : Int
  Head : String
deriving DecidableEq, Repr

/-- Summary `snapPeerInfo`. -/
structure snapPeerInfo where
  Version : Nat
deriving DecidableEq, Repr

/-- Wrapper `snapPeer` around `snap.Peer`. -/
structure snapPeer where
  Peer : snap.Peer
deriving DecidableEq, Repr

/-- Wrapper `albaPeer` around `alba.Peer`: the satellite connection, nil when
there is none, and the notification channel (kept as the channel's identity). -/
structure albaPeer where
  Peer : Peer
  snapExt : Option snapPeer
  snapWait : Option Nat
deriving DecidableEq, Repr

/-- Method `albaPeer.info`, with the receiver as it is after the call. `Hex`
stands for `common.Hash.Hex`, whose package lies outside these files. -/
def albaPeer.info (Hex : Hash → String) (p : albaPeer) : albaPeerInfo × albaPeer :=
  let (hash, td) := p.Peer.Head
  ({ Version := p.Peer.Version, Difficulty := td, Head := Hex hash }, p)

/-- Method `snapPeer.info`, with the receiver as it is after the call. -/
def snapPeer.info (p : snapPeer) : snapPeerInfo × snapPeer :=
  ({ Version := p.Peer.Version }, p)

/-! ## The API backend (`api_backend.go`) -/

/-- The calls `SetHead` makes on the node behind the backend. -/
inductive BackendCall where
  | Cancel
  | SetHead (number : Nat)
deriving DecidableEq, Repr

/-- Type `AlbaAPIBackend`, reduced to the node `SetHead` acts on: the state `b.alba`
holds (the handler's downloader and the block chain, which the downloader
writes to while a sync is in flight), and the calls made on it so far, the
oldest first. -/
structure AlbaAPIBackend (W : Type) where
  alba : W
  calls : List BackendCall

/-- Method `AlbaAPIBackend.SetHead`. `Cancel` stands for `downloader.Cancel` and
`chainSetHead` for `blockchain.SetHead`, whose packages lie outside these
files; each is a statement of its own, so whatever it returns is dropped. -/
def AlbaAPIBackend.SetHead {W : Type} (Cancel : W → W) (chainSetHead : Nat → W → W)
    (b : AlbaAPIBackend W) (number : Nat) : AlbaAPIBackend W :=
  let b : AlbaAPIBackend W :=
    { alba := Cancel b.alba, calls := b.calls ++ [BackendCall.Cancel] }
  let b : AlbaAPIBackend W :=
    { alba := chainSetHead number b.alba, calls := b.calls ++ [BackendCall.SetHead number] }
  b

/-- A node for evaluation: whether a sync is in flight, and the head of the chain. -/
structure sampleNode where
  syncing : Bool
  head : Nat
deriving DecidableEq, Repr

/-- A `Cancel` for evaluation: the sync in flight, if any, is stopped. -/
def sampleCancel (w : sampleNode) : sampleNode := { w with syncing := false }

/-- A `blockchain.SetHead` for evaluation: the chain is rewound to the block,
unless a sync is still writing to it. -/
def sampleSetHead (number : Nat) (w : sampleNode) : sampleNode :=
  if w.syncing then w else { w with head := min w.head number }

/-! ### Instances for evaluation -/

/-- A rendering of a hash for evaluation: the number of its bytes after "0x". -/
def sampleHex (h : Hash) : String := "0x" ++ toString h.bytes.length

/-- A peer with a paired satellite connection. -/
def samplePeer : albaPeer :=
  { Peer := fullPeer, snapExt := some { Peer := { id := 2, version := 1 } }, snapWait := some 0 }

end alba

namespace palba

/-! ## The mobile node (`mobile/geth.go`) -/

/-- Type `Enode` of the mobile package, kept as the node's URL. -/
structure Enode where
  url : String
deriving DecidableEq, Repr

/-- Type `Enodes`: a slice of nodes. -/
structure Enodes where
  nodes : List Enode
deriving DecidableEq, Repr

/-- Method `Enodes.Size`. -/
def Enodes.Size (e : Enodes) : Int := e.nodes.length

/-- Configuration `NodeConfig`. -/
structure NodeConfig where
  BootstrapNodes : Option Enodes
  MaxPeers : Int
  AlbaEnabled : Bool
  AlbaNetworkID : Int
  AlbaGenesis : String
  AlbaDatabaseCache : Int
  AlbaNetStats : String
  PprofAddress : String
deriving DecidableEq, Repr

/-- Type `p2p.Config`, the fields `NewNode` sets. -/
structure p2p.Config where
  NoDiscovery : Bool
  DiscoveryV5 : Bool
  BootstrapNodesV5 : List Enode
  ListenAddr : String
  NAT : String
  MaxPeers : Int
deriving DecidableEq, Repr

/-- Type `node.Config`, the fields `NewNode` sets. -/
structure node.Config where
  Name : String
  Version : String
  DataDir : String
  KeyStoreDir : String
  P2P : p2p.Config
deriving DecidableEq, Repr

/-- Type `core.Genesis`: the chain configuration, nil when the JSON has none,
and the remaining fields as they were parsed. -/
structure Genesis (Cfg : Type) where
  Config : Option Cfg
  body : String

/-- Type `albaconfig.Config`, the fields `NewNode` sets. -/
structure albaconfig.Config (Cfg : Type) where
  Genesis : Option (Genesis Cfg)
  SyncMode : alba.SyncMode
  NetworkId : Nat
  DatabaseCache : Int

/-- What the packages outside `mobile/geth.go` supply to `NewNode`: the
foundation boot nodes, the client's name and version, `filepath.Join`,
`nat.Any`, `node.New`, `json.Unmarshal` into a genesis, the genesis JSON and
chain configuration of the four test networks, `albaconfig.Defaults`,
`les.New` and `albastats.New`. -/
structure Env (Cfg Stack Backend : Type) where
  FoundationBootnodes : Enodes
  clientIdentifier : String
  VersionWithMeta : String
  Join : String → String → String
  natAny : String
  nodeNew : node.Config → Except String Stack
  Unmarshal : String → Except String (Genesis Cfg)
  RopstenGenesis : String
  SepoliaGenesis : String
  RinkebyGenesis : String
  GoerliGenesis : String
  RopstenChainConfig : Cfg
  SepoliaChainConfig : Cfg
  RinkebyChainConfig : Cfg
  GoerliChainConfig : Cfg
  Defaults : albaconfig.Config Cfg
  lesNew : Stack → albaconfig.Config Cfg → Except String Backend
  statsNew : Stack → Backend → String → Except String Unit

/-- Variable `defaultNodeConfig`; the fields it leaves out have Go's zero value. -/
def defaultNodeConfig {Cfg Stack Backend : Type} (env : Env Cfg Stack Backend) : NodeConfig :=
  { BootstrapNodes := some env.FoundationBootnodes
    MaxPeers := 25
    AlbaEnabled := true
    AlbaNetworkID := 1
    AlbaGenesis := ""
    AlbaDatabaseCache := 16
    AlbaNetStats := ""
    PprofAddress := "" }

/-- Function `NewNodeConfig`: a copy of the defaults. -/
def NewNodeConfig {Cfg Stack Backend : Type} (env : Env Cfg Stack Backend) : NodeConfig :=
  defaultNodeConfig env

/-- Type `Node`: the wrapped stack. -/
structure Node (Stack : Type) where
  node : Stack

/-- What a call of `NewNode` has done when it returns: the configuration as the
call leaves it (it is written through the pointer), the address handed to
`debug.StartPProf`, and the arguments of `node.New`, `les.New` and
`albastats.New` where the call got that far. -/
structure Built (Cfg : Type) where
  config : NodeConfig
  pprof : Option String
  nodeConf : node.Config
  genesis : Option (Genesis Cfg)
  albaConf : Option (albaconfig.Config Cfg)
  netstats : Option String

/-- What a call of `NewNode` has handed to `les.New` about the network: the
network id and the genesis of the protocol configuration, if the call got
that far. -/
def Built.network {Cfg : Type} (B : Built Cfg) : Option (Nat × Option (Genesis Cfg)) :=
  B.albaConf.map (fun c => (c.NetworkId, c.Genesis))

/-- The conversion `uint64(x)` of an `int64`. -/
def toUint64 (x : Int) : Nat := (x % 2 ^ 64).toNat

/-- One of the four blocks of `NewNode` that recognise a test network: when
the genesis JSON is the network's, its chain configuration is hard coded, and
a network id left at 1 becomes the network's id. -/
def hardCode {Cfg : Type} (net : String) (cfg : Cfg) (id : Int)
    (st : NodeConfig × Genesis Cfg) : NodeConfig × Genesis Cfg :=
  if st.1.AlbaGenesis = net then
    ({ st.1 with AlbaNetworkID := if st.1.AlbaNetworkID = 1 then id else st.1.AlbaNetworkID },
     { st.2 with Config := some cfg })
  else st

/-- The head of `NewNode`: the defaults that replace a nil configuration, a
`MaxPeers` of zero, and boot nodes that are nil or of size zero. -/
def fillDefaults {Cfg Stack Backend : Type} (env : Env Cfg Stack Backend)
    (config : Option NodeConfig) : NodeConfig :=
  -- If no or partial configurations were specified, use defaults
  let config : NodeConfig := match config with
    | none => NewNodeConfig env
    | some c => c
  let config : NodeConfig := if config.MaxPeers = 0 then
      { config with MaxPeers := (defaultNodeConfig env).MaxPeers } else config
  let config : NodeConfig :=
    if config.BootstrapNodes.isNone || config.BootstrapNodes.map Enodes.Size == some 0 then
      { config with BootstrapNodes := (defaultNodeConfig env).BootstrapNodes } else config
  config

/-- The value `nodeConf` of `NewNode`: the configuration of the networking
stack, built from the configuration after the defaults. -/
def nodeConfOf {Cfg Stack Backend : Type} (env : Env Cfg Stack Backend) (datadir : String)
    (config : NodeConfig) : node.Config :=
  { Name := env.clientIdentifier
    Version := env.VersionWithMeta
    DataDir := datadir
    KeyStoreDir := env.Join datadir "keystore"
    P2P :=
      { NoDiscovery := true
        DiscoveryV5 := true
        BootstrapNodesV5 := (config.BootstrapNodes.map Enodes.nodes).getD []
        ListenAddr := ":0"
        NAT := env.natAny
        MaxPeers := config.MaxPeers } }

/-- The genesis block of `NewNode`: nil for an empty `AlbaGenesis`, else the
parsed JSON, run through the four blocks that recognise a test network, in
the order Ropsten, Sepolia, Rinkeby, Goerli; with the configuration as the
blocks leave it. -/
def loadGenesis {Cfg Stack Backend : Type} (env : Env Cfg Stack Backend) (config : NodeConfig) :
    Except String (NodeConfig × Option (Genesis Cfg)) :=
  if config.AlbaGenesis ≠ "" then
    -- Parse the user supplied genesis spec if not mainnet
    match env.Unmarshal config.AlbaGenesis with
    | Except.error err => Except.error ("invalid genesis spec: " ++ err)
    | Except.ok genesis =>
      let st := hardCode env.RopstenGenesis env.RopstenChainConfig 3 (config, genesis)
      let st := hardCode env.SepoliaGenesis env.SepoliaChainConfig 11155111 st
      let st := hardCode env.RinkebyGenesis env.RinkebyChainConfig 4 st
      let st := hardCode env.GoerliGenesis env.GoerliChainConfig 5 st
      Except.ok (st.1, some st.2)
  else Except.ok (config, none)

/-- The protocol configuration of `NewNode`: the defaults of `albaconfig` with
the genesis, light sync, the network id and the database cache written over
them. The source names the variable `albaConf` in four places and `ethConf` in
two (the network id and the argument of `les.New`); the two names are read as
the one variable the block declares. -/
def albaConfOf {Cfg Stack Backend : Type} (env : Env Cfg Stack Backend) (config : NodeConfig)
    (genesis : Option (Genesis Cfg)) : albaconfig.Config Cfg :=
  { env.Defaults with
    Genesis := genesis
    SyncMode := alba.SyncMode.LightSync
    NetworkId := toUint64 config.AlbaNetworkID
    DatabaseCache := config.AlbaDatabaseCache }

/-- Function `NewNode`, with everything it builds next to its result. -/
def NewNode {Cfg Stack Backend : Type} (env : Env Cfg Stack Backend) (datadir : String)
    (config : Option NodeConfig) : Built Cfg × Except String (Node Stack) :=
  let config := fillDefaults env config
  let pprof := if config.PprofAddress ≠ "" then some config.PprofAddress else none
  -- Create the empty networking stack
  let nodeConf := nodeConfOf env datadir config
  let built : Built Cfg :=
    { config := config, pprof := pprof, nodeConf := nodeConf, genesis := none,
      albaConf := none, netstats := none }
  match env.nodeNew nodeConf with
  | Except.error err => (built, Except.error err)
  | Except.ok rawStack =>
    match loadGenesis env config with
    | Except.error err => (built, Except.error err)
    | Except.ok (config, genesis) =>
      let built := { built with config := config, genesis := genesis }
      -- Register the Alba protocol if requested
      if config.AlbaEnabled then
        let albaConf := albaConfOf env config genesis
        let built := { built with albaConf := some albaConf }
        match env.lesNew rawStack albaConf with
        | Except.error err => (built, Except.error ("ethereum init: " ++ err))
        | Except.ok lesBackend =>
          -- If netstats reporting is requested, do it
          if config.AlbaNetStats ≠ "" then
            match env.statsNew rawStack lesBackend config.AlbaNetStats with
            | Except.error err =>
              ({ built with netstats := some config.AlbaNetStats },
                Except.error ("netstats init: " ++ err))
            | Except.ok _ =>
              ({ built with netstats := some config.AlbaNetStats }, Except.ok { node := rawStack })
          else (built, Except.ok { node := rawStack })
      else (built, Except.ok { node := rawStack })

/-- The four test networks `NewNode` recognises, in the order of its blocks:
the genesis JSON, the hard-coded chain configuration and the network id. -/
def testnets {Cfg Stack Backend : Type} (env : Env Cfg Stack Backend) : List (String × Cfg × Int) :=
  [(env.RopstenGenesis, env.RopstenChainConfig, 3),
   (env.SepoliaGenesis, env.SepoliaChainConfig, 11155111),
   (env.RinkebyGenesis, env.RinkebyChainConfig, 4),
   (env.GoerliGenesis, env.GoerliChainConfig, 5)]

/-! ### Instances for evaluation -/

/-- An environment in which every outside call succeeds: two foundation boot
nodes, a stack and a backend without content, a genesis parser that keeps the
JSON, and chain configurations that are the networks' ids. -/
def sampleEnv : Env Nat Unit Unit :=
  { FoundationBootnodes := { nodes := [{ url := "enode://a@1.1.1.1:30303" },
                                       { url := "enode://b@2.2.2.2:30303" }] }
    clientIdentifier := "GethDroid"
    VersionWithMeta := "1.0.0-stable"
    Join := fun a b => a ++ "/" ++ b
    natAny := "any"
    nodeNew := fun _ => Except.ok ()
    Unmarshal := fun js => Except.ok { Config := none, body := js }
    RopstenGenesis := "ropsten"
    SepoliaGenesis := "sepolia"
    RinkebyGenesis := "rinkeby"
    GoerliGenesis := "goerli"
    RopstenChainConfig := 3
    SepoliaChainConfig := 11155111
    RinkebyChainConfig := 4
    GoerliChainConfig := 5
    Defaults := { Genesis := none, SyncMode := alba.SyncMode.SnapSync, NetworkId := 1,
                  DatabaseCache := 512 }
    lesNew := fun _ _ => Except.ok ()
    statsNew := fun _ _ _ => Except.ok () }

/-- A configuration that asks for static and trusted peers only and for no
database cache: `NodeConfig{AlbaEnabled: true, AlbaNetworkID: 1}`, the other
fields at Go's zero value. -/
def zeroConfig : NodeConfig :=
  { BootstrapNodes := none
    MaxPeers := 0
    AlbaEnabled := true
    AlbaNetworkID := 1
    AlbaGenesis := ""
    AlbaDatabaseCache := 0
    AlbaNetStats := ""
    PprofAddress := "" }

/-- A partial configuration: three peers and one boot node, the Ropsten genesis
and the default network id. -/
def ropstenConfig : NodeConfig :=
  { BootstrapNodes := some { nodes := [{ url := "enode://c@3.3.3.3:30303" }] }
    MaxPeers := 3
    AlbaEnabled := true
    AlbaNetworkID := 1
    AlbaGenesis := "ropsten"
    AlbaDatabaseCache := 64
    AlbaNetStats := ""
    PprofAddress := "" }

end palba

/-! # Theorems -/

namespace alba

/-! ## Sync mode -/

theorem doSync_snapSync_zero (dl : Downloader) (h : handler) (op : chainSyncOp)
    (hf : h.snapSync = 0) : (doSync dl h op).1.snapSync = 0 := by
  unfold doSync
  split
  · exact hf
  · split
    · rfl
    · exact hf

theorem cycle_snapSync_zero (dl : Downloader) (h : handler) (hf : h.snapSync = 0) :
    (cycle dl h).snapSync = 0 := by
  unfold cycle
  split
  · exact hf
  · split
    · exact hf
    · rename_i p _
      have hd := doSync_snapSync_zero dl { h with failed := none } (peerToSyncOp h.mode p) hf
      split
      · rename_i h' heq
        rw [heq] at hd
        exact hd
      · rename_i h' _ heq
        rw [heq] at hd
        exact hd

theorem syncStep_snapSync_zero (h : handler) (ev : SyncEvent) (hf : h.snapSync = 0) :
    (syncStep h ev).snapSync = 0 := by
  cases ev with
  | register p =>
    simp only [syncStep]
    split
    · exact hf
    · exact hf
  | unregister id => exact hf
  | cycle dl => exact cycle_snapSync_zero dl h hf

theorem syncRun_snapSync_zero (evs : List SyncEvent) :
    ∀ h : handler, h.snapSync = 0 → (syncRun h evs).snapSync = 0 := by
  induction evs with
  | nil => intro h hf; exact hf
  | cons ev rest ih =>
    intro h hf
    exact ih (syncStep h ev) (syncStep_snapSync_zero h ev hf)

/-- C1. The sync mode is seeded from the local chain: a handler created over a
chain whose head is the genesis block has `snapSync = 1`, a handler created
over a chain with at least one imported block has `snapSync = 0`; so it is
for the two handlers of the test, `newTestHandler()` and
`newTestHandlerWithBlocks(blocks)` with `blocks > 0`. -/
theorem newHandler_seeds_sync_mode {Cfg : Type} (chain : BlockChain Cfg) (blocks : Nat) :
    (chain.currentHeaderNumber = 0 → (newHandler chain).snapSync = 1) ∧
    (0 < chain.currentHeaderNumber → (newHandler chain).snapSync = 0) ∧
    newTestHandler.snapSync = 1 ∧
    (0 < blocks → (newTestHandlerWithBlocks blocks).snapSync = 0) := by
  refine ⟨?_, ?_, ?_, ?_⟩
  · intro h0
    simp [newHandler, h0]
  · intro hpos
    have hne : chain.currentHeaderNumber ≠ 0 := Nat.pos_iff_ne_zero.mp hpos
    simp [newHandler, hne]
  · rfl
  · intro hpos
    have hne : blocks ≠ 0 := Nat.pos_iff_ne_zero.mp hpos
    simp [newTestHandlerWithBlocks, newHandler, testChain, hne]

theorem newHandler_seeds_sync_mode_witness :
    (newHandler (testChain 0)).snapSync = 1 ∧
    (newHandler (testChain 1024)).snapSync = 0 ∧
    (newTestHandlerWithBlocks 1024).snapSync = 0 :=
  ⟨(newHandler_seeds_sync_mode (testChain 0) 1024).1 rfl,
   (newHandler_seeds_sync_mode (testChain 1024) 1024).2.1 (by decide),
   (newHandler_seeds_sync_mode (testChain 0) 1024).2.2.2 (by decide)⟩

/-- C2. Snapshot-to-full demotion: for a handler with `snapSync = 1` and a sync
operation `peerToSyncOp(SnapSync, p)` for any peer `p` (the best peer among
them), if `doSync` returns no error and the downloader imported real blocks
the flag is 0 afterwards, and if `doSync` returns an error the flag is
unchanged. -/
theorem doSync_disables_snap_sync (dl : Downloader) (h : handler) (p : Peer)
    (hs : h.snapSync = 1) :
    ((doSync dl h (peerToSyncOp SyncMode.SnapSync p)).2 = none →
      (dl p SyncMode.SnapSync).1 = true →
      (doSync dl h (peerToSyncOp SyncMode.SnapSync p)).1.snapSync = 0) ∧
    (∀ err, (doSync dl h (peerToSyncOp SyncMode.SnapSync p)).2 = some err →
      (doSync dl h (peerToSyncOp SyncMode.SnapSync p)).1.snapSync = h.snapSync) := by
  unfold doSync peerToSyncOp
  constructor
  · intro hnone himp
    split
    · rename_i heq
      simp [heq] at hnone
    · rename_i imported heq
      simp only [heq] at himp
      simp [hs, himp]
  · intro err herr
    split
    · rfl
    · rename_i imported heq
      simp only [heq] at herr
      split at herr <;> simp at herr

theorem doSync_disables_snap_sync_witness :
    peerWithHighestTD pairedHandler.peers [] = some fullPeer ∧
    (doSync importingDownloader pairedHandler
      (peerToSyncOp SyncMode.SnapSync fullPeer)).1.snapSync = 0 ∧
    (doSync failingDownloader pairedHandler
      (peerToSyncOp SyncMode.SnapSync fullPeer)).1.snapSync = 1 :=
  ⟨by decide,
   (doSync_disables_snap_sync importingDownloader pairedHandler fullPeer rfl).1 rfl rfl,
   (doSync_disables_snap_sync failingDownloader pairedHandler fullPeer rfl).2 "timeout" rfl⟩

/-- C3. Full sync is permanent: once a run of the orchestrator has reached
`snapSync = 0`, the flag is 0 and the mode is `FullSync` after every further
sequence of events, whatever peers register or unregister and whether the
cycles' sync attempts succeed, fail or are skipped. -/
theorem full_sync_is_permanent (h : handler) (pre post : List SyncEvent)
    (hf : (syncRun h pre).snapSync = 0) :
    (syncRun h (pre ++ post)).snapSync = 0 ∧
    (syncRun h (pre ++ post)).mode = SyncMode.FullSync := by
  have hz : (syncRun h (pre ++ post)).snapSync = 0 := by
    unfold syncRun at hf ⊢
    rw [List.foldl_append]
    exact syncRun_snapSync_zero post _ hf
  refine ⟨hz, ?_⟩
  simp [handler.mode, hz]

theorem full_sync_is_permanent_witness :
    (syncRun pairedHandler
      ([SyncEvent.cycle importingDownloader] ++
        [SyncEvent.cycle failingDownloader, SyncEvent.unregister 2,
         SyncEvent.cycle importingDownloader])).snapSync = 0 ∧
    (syncRun pairedHandler
      ([SyncEvent.cycle importingDownloader] ++
        [SyncEvent.cycle failingDownloader, SyncEvent.unregister 2,
         SyncEvent.cycle importingDownloader])).mode = SyncMode.FullSync :=
  full_sync_is_permanent pairedHandler [SyncEvent.cycle importingDownloader]
    [SyncEvent.cycle failingDownloader, SyncEvent.unregister 2,
     SyncEvent.cycle importingDownloader] (by decide)

/-! ## Fork advertiser -/

/-- C4. The entry `currentAlbaEntry` returns has the fork identifier
`forkid.NewID(config, genesis hash, number of the current header)` (the number
as `Number.Uint64()` gives it, the number itself below `2 ^ 64`) and an empty
`Rest`; two chains with the same configuration, genesis hash and head number
give equal entries. -/
theorem currentAlbaEntry_spec {Cfg : Type} (NewID : Cfg → Hash → Nat → forkid.ID)
    (a b : Alba Cfg) :
    (currentAlbaEntry NewID a).ForkID =
      NewID a.blockchain.config a.blockchain.genesisHash
        (Uint64 a.blockchain.currentHeaderNumber) ∧
    (a.blockchain.currentHeaderNumber < 2 ^ 64 →
      (currentAlbaEntry NewID a).ForkID =
        NewID a.blockchain.config a.blockchain.genesisHash a.blockchain.currentHeaderNumber) ∧
    (currentAlbaEntry NewID a).Rest = [] ∧
    (a.blockchain.config = b.blockchain.config →
      a.blockchain.genesisHash = b.blockchain.genesisHash →
      a.blockchain.currentHeaderNumber = b.blockchain.currentHeaderNumber →
      currentAlbaEntry NewID a = currentAlbaEntry NewID b) := by
  refine ⟨rfl, ?_, rfl, ?_⟩
  · intro hlt
    have hu : Uint64 a.blockchain.currentHeaderNumber = a.blockchain.currentHeaderNumber :=
      Nat.mod_eq_of_lt hlt
    simp [currentAlbaEntry, hu]
  · intro hc hg hn
    simp [currentAlbaEntry, hc, hg, hn]

theorem currentAlbaEntry_spec_witness :
    (currentAlbaEntry sampleNewID { blockchain := sampleChain 7 }).ForkID =
      sampleNewID 100 { bytes := [222, 173, 190, 239, 1] } 7 ∧
    (currentAlbaEntry sampleNewID { blockchain := sampleChain 7 }).Rest = [] ∧
    currentAlbaEntry sampleNewID { blockchain := sampleChain 7 } =
      currentAlbaEntry sampleNewID
        { blockchain := { config := 100, genesisHash := { bytes := [222, 173, 190, 239, 1] },
                          currentHeaderNumber := 7 } } :=
  ⟨(currentAlbaEntry_spec sampleNewID { blockchain := sampleChain 7 }
      { blockchain := sampleChain 7 }).2.1 (by decide),
   (currentAlbaEntry_spec sampleNewID { blockchain := sampleChain 7 }
      { blockchain := sampleChain 7 }).2.2.1,
   (currentAlbaEntry_spec sampleNewID { blockchain := sampleChain 7 }
      { blockchain := { config := 100, genesisHash := { bytes := [222, 173, 190, 239, 1] },
                        currentHeaderNumber := 7 } }).2.2.2 rfl rfl rfl⟩

theorem published_Set (ln : LocalNode) (e : albaEntry) :
    (ln.Set e).published "alba" = some e := by
  simp [LocalNode.published, LocalNode.Set, albaEntry.ENRKey, List.filter_append]

theorem updateRun_append {Cfg : Type} (NewID : Cfg → Hash → Nat → forkid.ID)
    (s : UpdateLoop Cfg) (xs ys : List (UpdateEvent Cfg)) :
    updateRun NewID s (xs ++ ys) = updateRun NewID (updateRun NewID s xs) ys := by
  simp [updateRun, List.foldl_append]

theorem updateRun_open {Cfg : Type} (NewID : Cfg → Hash → Nat → forkid.ID)
    (evs : List (UpdateEvent Cfg)) :
    ∀ s : UpdateLoop Cfg, s.running = true → (∀ e ∈ evs, e.isSubErr = false) →
      (updateRun NewID s evs).running = true ∧
      (updateRun NewID s evs).unsubscribed = s.unsubscribed ∧
      (updateRun NewID s evs).ln.sets.length =
        s.ln.sets.length + evs.countP UpdateEvent.isNewHead := by
  induction evs with
  | nil => intro s hr _; simp [updateRun, hr]
  | cons ev rest ih =>
    intro s hr hopen
    have hrest : ∀ e ∈ rest, e.isSubErr = false :=
      fun e he => hopen e (List.mem_cons_of_mem _ he)
    have hev : ev.isSubErr = false := hopen ev (List.mem_cons_self _ _)
    cases ev with
    | chain bc =>
      have h := ih (updateStep NewID s (UpdateEvent.chain bc)) hr hrest
      simpa [updateRun, updateStep, UpdateEvent.isNewHead] using h
    | newHead payload =>
      have h := ih (updateStep NewID s (UpdateEvent.newHead payload))
        (by simp [updateStep, hr]) hrest
      simp only [updateStep, hr, if_true, LocalNode.Set, List.length_append,
        List.length_singleton] at h
      simp only [updateRun, List.foldl_cons, updateStep, hr, if_true, LocalNode.Set,
        List.countP_cons, UpdateEvent.isNewHead]
      refine ⟨h.1, h.2.1, ?_⟩
      have h3 := h.2.2
      simp only [updateRun] at h3
      omega
    | subErr => simp [UpdateEvent.isSubErr] at hev

theorem updateRun_stopped {Cfg : Type} (NewID : Cfg → Hash → Nat → forkid.ID)
    (evs : List (UpdateEvent Cfg)) :
    ∀ s : UpdateLoop Cfg, s.running = false →
      (updateRun NewID s evs).running = false ∧
      (updateRun NewID s evs).ln = s.ln ∧
      (updateRun NewID s evs).unsubscribed = s.unsubscribed := by
  induction evs with
  | nil => intro s hr; simp [updateRun, hr]
  | cons ev rest ih =>
    intro s hr
    cases ev with
    | chain bc =>
      have h := ih (updateStep NewID s (UpdateEvent.chain bc)) hr
      simpa [updateRun, updateStep] using h
    | newHead payload =>
      have h := ih (updateStep NewID s (UpdateEvent.newHead payload)) (by simp [updateStep, hr])
      simpa [updateRun, updateStep, hr] using h
    | subErr =>
      have h := ih (updateStep NewID s UpdateEvent.subErr) (by simp [updateStep, hr])
      simpa [updateRun, updateStep, hr] using h

/-- C5. Republication: while the subscription is open, every head event the
loop of `startAlbaEntryUpdate` receives performs exactly one `ln.Set`, under
the key "alba", of the entry computed from the chain as it is when the event
is processed, whatever the event's payload; the number of `Set` calls grows by
the number of head events received; and after a head event the published
entry is the entry of the current head. -/
theorem head_event_republishes {Cfg : Type} (NewID : Cfg → Hash → Nat → forkid.ID)
    (s : UpdateLoop Cfg) (evs : List (UpdateEvent Cfg)) (payload other : Nat)
    (hrun : s.running = true) (hopen : ∀ e ∈ evs, e.isSubErr = false) :
    (updateRun NewID s (evs ++ [UpdateEvent.newHead payload])).ln.sets =
      (updateRun NewID s evs).ln.sets ++
        [("alba", currentAlbaEntry NewID (updateRun NewID s evs).alba)] ∧
    (updateRun NewID s (evs ++ [UpdateEvent.newHead payload])).alba =
      (updateRun NewID s evs).alba ∧
    (updateRun NewID s (evs ++ [UpdateEvent.newHead payload])).ln.published "alba" =
      some (currentAlbaEntry NewID
        (updateRun NewID s (evs ++ [UpdateEvent.newHead payload])).alba) ∧
    updateRun NewID s (evs ++ [UpdateEvent.newHead other]) =
      updateRun NewID s (evs ++ [UpdateEvent.newHead payload]) ∧
    (updateRun NewID s evs).ln.sets.length =
      s.ln.sets.length + evs.countP UpdateEvent.isNewHead := by
  have hr := (updateRun_open NewID evs s hrun hopen).1
  have hstep : ∀ n : Nat, updateRun NewID s (evs ++ [UpdateEvent.newHead n]) =
      { updateRun NewID s evs with
        ln := (updateRun NewID s evs).ln.Set (currentAlbaEntry NewID (updateRun NewID s evs).alba) } := by
    intro n
    rw [updateRun_append]
    show updateStep NewID (updateRun NewID s evs) (UpdateEvent.newHead n) = _
    simp only [updateStep, hr, if_true]
  refine ⟨?_, ?_, ?_, ?_, (updateRun_open NewID evs s hrun hopen).2.2⟩
  · rw [hstep]
    simp [LocalNode.Set, albaEntry.ENRKey]
  · rw [hstep]
  · rw [hstep]
    exact published_Set _ _
  · rw [hstep, hstep]

/-- C6. Shutdown: from the state `startAlbaEntryUpdate` sets up, the loop is
still running and has not unsubscribed after any events that do not include
the subscription's error; once the error is received the loop has stopped,
`Unsubscribe` has been called exactly once, and whatever arrives afterwards
performs no further `ln.Set`. -/
theorem subscription_error_stops_loop {Cfg : Type} (NewID : Cfg → Hash → Nat → forkid.ID)
    (alba : Alba Cfg) (ln : LocalNode) (pre post : List (UpdateEvent Cfg))
    (hopen : ∀ e ∈ pre, e.isSubErr = false) :
    (updateRun NewID (startAlbaEntryUpdate alba ln) pre).running = true ∧
    (updateRun NewID (startAlbaEntryUpdate alba ln) pre).unsubscribed = 0 ∧
    (updateRun NewID (startAlbaEntryUpdate alba ln)
      (pre ++ UpdateEvent.subErr :: post)).running = false ∧
    (updateRun NewID (startAlbaEntryUpdate alba ln)
      (pre ++ UpdateEvent.subErr :: post)).unsubscribed = 1 ∧
    (updateRun NewID (startAlbaEntryUpdate alba ln)
      (pre ++ UpdateEvent.subErr :: post)).ln =
        (updateRun NewID (startAlbaEntryUpdate alba ln) pre).ln := by
  have ho := updateRun_open NewID pre (startAlbaEntryUpdate alba ln) rfl hopen
  have hu : (updateRun NewID (startAlbaEntryUpdate alba ln) pre).unsubscribed = 0 := ho.2.1
  have hs := updateRun_stopped NewID post
    (updateStep NewID (updateRun NewID (startAlbaEntryUpdate alba ln) pre) UpdateEvent.subErr)
    (by simp [updateStep, ho.1])
  have hsplit : updateRun NewID (startAlbaEntryUpdate alba ln) (pre ++ UpdateEvent.subErr :: post)
      = updateRun NewID
          (updateStep NewID (updateRun NewID (startAlbaEntryUpdate alba ln) pre)
            UpdateEvent.subErr) post := by
    rw [updateRun_append]
    rfl
  refine ⟨ho.1, hu, ?_, ?_, ?_⟩
  · rw [hsplit]; exact hs.1
  · rw [hsplit, hs.2.2]
    simp [updateStep, ho.1, hu]
  · rw [hsplit, hs.2.1]
    simp [updateStep, ho.1]

theorem head_event_republishes_witness :
    (updateRun sampleNewID sampleLoop
      ([UpdateEvent.chain (sampleChain 8), UpdateEvent.newHead 8,
        UpdateEvent.chain (sampleChain 120)] ++ [UpdateEvent.newHead 9])).ln.published "alba" =
      some (currentAlbaEntry sampleNewID { blockchain := sampleChain 120 }) :=
  (head_event_republishes sampleNewID sampleLoop
    [UpdateEvent.chain (sampleChain 8), UpdateEvent.newHead 8,
     UpdateEvent.chain (sampleChain 120)] 9 9 rfl (by decide)).2.2.1

theorem subscription_error_stops_loop_witness :
    (updateRun sampleNewID sampleLoop
      ([UpdateEvent.chain (sampleChain 8), UpdateEvent.newHead 8] ++
        UpdateEvent.subErr :: [UpdateEvent.newHead 9, UpdateEvent.subErr])).running = false ∧
    (updateRun sampleNewID sampleLoop
      ([UpdateEvent.chain (sampleChain 8), UpdateEvent.newHead 8] ++
        UpdateEvent.subErr :: [UpdateEvent.newHead 9, UpdateEvent.subErr])).unsubscribed = 1 ∧
    (updateRun sampleNewID sampleLoop
      ([UpdateEvent.chain (sampleChain 8), UpdateEvent.newHead 8] ++
        UpdateEvent.subErr :: [UpdateEvent.newHead 9, UpdateEvent.subErr])).ln =
      (updateRun sampleNewID sampleLoop
        [UpdateEvent.chain (sampleChain 8), UpdateEvent.newHead 8]).ln :=
  (subscription_error_stops_loop sampleNewID { blockchain := sampleChain 7 } { sets := [] }
    [UpdateEvent.chain (sampleChain 8), UpdateEvent.newHead 8]
    [UpdateEvent.newHead 9, UpdateEvent.subErr] (by decide)).2.2

/-! ## The encoded entry -/

theorem decodeUint_putUint (n : Nat) (hn : n < 2 ^ 64) : decodeUint (putUint n) = some n := by
  unfold decodeUint putUint
  have hlen : ¬ 8 < (Nat.digits 256 n).reverse.length := by
    rw [List.length_reverse]
    by_cases h0 : n = 0
    · subst h0; simp
    · have hle := Nat.base_pow_length_digits_le 256 n (by norm_num) h0
      intro h8
      have hpow : 256 ^ 9 ≤ 256 ^ (Nat.digits 256 n).length :=
        Nat.pow_le_pow_right (by norm_num) h8
      have h9 : (256 : Nat) ^ 9 = 256 * 2 ^ 64 := by norm_num
      omega
  have hhead : ¬ (Nat.digits 256 n).reverse.head? = some 0 := by
    rw [List.head?_reverse]
    by_cases h0 : n = 0
    · subst h0; simp
    · rw [List.getLast?_eq_getLast _ (Nat.digits_ne_nil_iff_ne_zero.mpr h0)]
      intro h
      exact Nat.getLast_digit_ne_zero 256 h0 (Option.some.inj h)
  rw [if_neg hlen, if_neg hhead, List.reverse_reverse, Nat.ofDigits_digits]

theorem decodeForkID_encodeForkID (id : forkid.ID) (hh : id.Hash.length = 4)
    (hn : id.Next < 2 ^ 64) : decodeForkID (encodeForkID id) = some id := by
  simp [decodeForkID, encodeForkID, hh, decodeUint_putUint id.Next hn]

/-- C7. Forward compatibility: every entry is published under the key "alba";
an encoded entry decodes to its fork identifier with every element that
follows the identifier in `Rest`, however many there are, so decoding it
gives the same fork identifier as decoding the entry without them; and for
any first element, extra trailing elements change neither whether decoding
succeeds nor the fork identifier it gives. -/
theorem entry_decoding_ignores_tail (e : albaEntry) (id : forkid.ID) (x : RawValue)
    (extra : List RawValue) (hh : id.Hash.length = 4) (hn : id.Next < 2 ^ 64) :
    e.ENRKey = "alba" ∧
    decodeEntry (encodeEntry { ForkID := id, Rest := extra }) =
      some { ForkID := id, Rest := extra } ∧
    decodeEntry (encodeEntry { ForkID := id, Rest := [] }) = some { ForkID := id, Rest := [] } ∧
    (decodeEntry (encodeEntry { ForkID := id, Rest := extra })).map albaEntry.ForkID =
      (decodeEntry (encodeEntry { ForkID := id, Rest := [] })).map albaEntry.ForkID ∧
    (decodeEntry (RawValue.list (x :: extra))).map albaEntry.ForkID =
      (decodeEntry (RawValue.list [x])).map albaEntry.ForkID := by
  have hid := decodeForkID_encodeForkID id hh hn
  refine ⟨rfl, ?_, ?_, ?_, ?_⟩
  · simp [decodeEntry, encodeEntry, hid]
  · simp [decodeEntry, encodeEntry, hid]
  · simp [decodeEntry, encodeEntry, hid]
  · cases hx : decodeForkID x <;> simp [decodeEntry, hx]

theorem entry_decoding_ignores_tail_witness :
    decodeEntry (encodeEntry
      { ForkID := { Hash := [222, 173, 190, 239], Next := 1150000 },
        Rest := [RawValue.str [1], RawValue.list [RawValue.str []]] }) =
      some { ForkID := { Hash := [222, 173, 190, 239], Next := 1150000 },
             Rest := [RawValue.str [1], RawValue.list [RawValue.str []]] } :=
  (entry_decoding_ignores_tail { ForkID := { Hash := [], Next := 0 }, Rest := [] }
    { Hash := [222, 173, 190, 239], Next := 1150000 } (RawValue.str [])
    [RawValue.str [1], RawValue.list [RawValue.str []]] rfl (by norm_num)).2.1

/-! ## Peer summaries -/

/-- C8. The summary `albaPeer.info` returns for a peer with `Head() = (hash, td)`
has `Version = p.Version()`, `Difficulty = td` and `Head = hash.Hex()`, and the
peer is as before (version, head, total difficulty, `snapExt` and `snapWait`);
`snapPeer.info` returns exactly `Version = p.Version()` and leaves its peer as
before. -/
theorem info_is_projection (Hex : Hash → String) (p : albaPeer) (hash : Hash) (td : Int)
    (q : snapPeer) (hhead : p.Peer.Head = (hash, td)) :
    (p.info Hex).1 = { Version := p.Peer.Version, Difficulty := td, Head := Hex hash } ∧
    (p.info Hex).2 = p ∧
    (p.info Hex).2.Peer.Version = p.Peer.Version ∧
    (p.info Hex).2.Peer.Head = (hash, td) ∧
    (p.info Hex).2.snapExt = p.snapExt ∧
    (p.info Hex).2.snapWait = p.snapWait ∧
    q.info.1 = { Version := q.Peer.Version } ∧
    q.info.2 = q := by
  have h1 : hash = p.Peer.head := by
    have := congrArg Prod.fst hhead
    exact this.symm
  have h2 : td = p.Peer.td := by
    have := congrArg Prod.snd hhead
    exact this.symm
  subst h1 h2
  exact ⟨rfl, rfl, rfl, rfl, rfl, rfl, rfl, rfl⟩

theorem info_is_projection_witness :
    (samplePeer.info sampleHex).1 = { Version := 66, Difficulty := 1024, Head := "0x0" } ∧
    (samplePeer.info sampleHex).2 = samplePeer :=
  ⟨(info_is_projection sampleHex samplePeer { bytes := [] } 1024
      { Peer := { id := 2, version := 1 } } rfl).1,
   (info_is_projection sampleHex samplePeer { bytes := [] } 1024
      { Peer := { id := 2, version := 1 } } rfl).2.1⟩

/-! ## API backend -/

/-- C12. For every block number, `SetHead` calls the downloader's `Cancel` and
then `blockchain.SetHead(number)`, each exactly once and in that order, and
the chain is rewound in the state `Cancel` has left; it does so whether or not
a sync is in flight, as on the sample node, where the rewind takes effect
in both cases because the sync has been cancelled first. -/
theorem SetHead_cancels_then_rewinds {W : Type} (Cancel : W → W) (chainSetHead : Nat → W → W)
    (b : AlbaAPIBackend W) (number : Nat) :
    (AlbaAPIBackend.SetHead Cancel chainSetHead b number).calls =
      b.calls ++ [BackendCall.Cancel, BackendCall.SetHead number] ∧
    (AlbaAPIBackend.SetHead Cancel chainSetHead b number).alba =
      chainSetHead number (Cancel b.alba) ∧
    (AlbaAPIBackend.SetHead sampleCancel sampleSetHead
      { alba := { syncing := true, head := 10 }, calls := [] } number).alba =
        { syncing := false, head := min 10 number } ∧
    (AlbaAPIBackend.SetHead sampleCancel sampleSetHead
      { alba := { syncing := false, head := 10 }, calls := [] } number).alba =
        { syncing := false, head := min 10 number } := by
  refine ⟨?_, rfl, ?_, ?_⟩
  · simp [AlbaAPIBackend.SetHead]
  · simp [AlbaAPIBackend.SetHead, sampleCancel, sampleSetHead]
  · simp [AlbaAPIBackend.SetHead, sampleCancel, sampleSetHead]

end alba

namespace palba

/-! ## The mobile node -/

theorem fillDefaults_MaxPeers {Cfg Stack Backend : Type} (env : Env Cfg Stack Backend)
    (cfg : NodeConfig) :
    (fillDefaults env (some cfg)).MaxPeers = if cfg.MaxPeers = 0 then 25 else cfg.MaxPeers := by
  unfold fillDefaults
  by_cases h0 : cfg.MaxPeers = 0
  · simp only [h0, if_true]
    split <;> rfl
  · simp only [h0, if_false]
    split <;> rfl

theorem fillDefaults_cache {Cfg Stack Backend : Type} (env : Env Cfg Stack Backend)
    (cfg : NodeConfig) :
    (fillDefaults env (some cfg)).AlbaDatabaseCache = cfg.AlbaDatabaseCache := by
  unfold fillDefaults
  simp only
  split <;> split <;> rfl

theorem NewNode_nodeConf {Cfg Stack Backend : Type} (env : Env Cfg Stack Backend)
    (datadir : String) (config : Option NodeConfig) :
    (NewNode env datadir config).1.nodeConf = nodeConfOf env datadir (fillDefaults env config) := by
  unfold NewNode
  simp only
  repeat' split
  all_goals rfl

theorem hardCode_cache {Cfg : Type} (net : String) (c : Cfg) (id : Int)
    (st : NodeConfig × Genesis Cfg) :
    (hardCode net c id st).1.AlbaDatabaseCache = st.1.AlbaDatabaseCache := by
  unfold hardCode
  split <;> rfl

theorem loadGenesis_cache {Cfg Stack Backend : Type} (env : Env Cfg Stack Backend)
    (config config' : NodeConfig) (genesis : Option (Genesis Cfg))
    (h : loadGenesis env config = Except.ok (config', genesis)) :
    config'.AlbaDatabaseCache = config.AlbaDatabaseCache := by
  unfold loadGenesis at h
  split at h
  · split at h
    · cases h
    · simp only [Except.ok.injEq, Prod.mk.injEq] at h
      rw [← h.1]
      simp only [hardCode_cache]
  · simp only [Except.ok.injEq, Prod.mk.injEq] at h
    rw [← h.1]

theorem NewNode_albaConf_DatabaseCache {Cfg Stack Backend : Type} (env : Env Cfg Stack Backend)
    (datadir : String) (cfg : NodeConfig) (conf : albaconfig.Config Cfg)
    (hc : (NewNode env datadir (some cfg)).1.albaConf = some conf) :
    conf.DatabaseCache = cfg.AlbaDatabaseCache := by
  unfold NewNode at hc
  simp only at hc
  split at hc
  · simp at hc
  · split at hc
    · simp at hc
    · rename_i config' genesis hload
      have hcache := loadGenesis_cache env _ _ _ hload
      rw [fillDefaults_cache] at hcache
      have hconf : conf = albaConfOf env config' genesis := by
        repeat' split at hc
        all_goals simp at hc
        all_goals exact hc.symm
      rw [hconf]
      exact hcache

theorem NewNode_P2P_MaxPeers {Cfg Stack Backend : Type} (env : Env Cfg Stack Backend)
    (datadir : String) (cfg : NodeConfig) :
    (NewNode env datadir (some cfg)).1.nodeConf.P2P.MaxPeers =
      if cfg.MaxPeers = 0 then 25 else cfg.MaxPeers := by
  rw [NewNode_nodeConf]
  exact fillDefaults_MaxPeers env cfg

/-- C9 at the failing input: the configuration `zeroConfig` has `MaxPeers = 0`,
and the P2P configuration `NewNode` builds from it has `MaxPeers = 25`, the
default, not the 0 that would admit static and trusted peers only. -/
theorem NewNode_replaces_zero_MaxPeers :
    zeroConfig.MaxPeers = 0 ∧
    (NewNode sampleEnv "data" (some zeroConfig)).1.nodeConf.P2P.MaxPeers = 25 ∧
    ¬ (NewNode sampleEnv "data" (some zeroConfig)).1.nodeConf.P2P.MaxPeers = 0 := by
  decide

/-- C10 as stated fails: with `AlbaEnabled` set and `AlbaDatabaseCache = 0` the
configuration `NewNode` hands to `les.New` has `DatabaseCache = 0`, and with
`AlbaDatabaseCache = -5` it has `DatabaseCache = -5`; neither is at least 16. -/
theorem NewNode_hands_cache_below_minimum :
    zeroConfig.AlbaEnabled = true ∧
    (NewNode sampleEnv "data" (some zeroConfig)).1.albaConf.map
      albaconfig.Config.DatabaseCache = some 0 ∧
    (NewNode sampleEnv "data" (some { zeroConfig with AlbaDatabaseCache := -5 })).1.albaConf.map
      albaconfig.Config.DatabaseCache = some (-5) ∧
    ¬ (∃ c : Int, (NewNode sampleEnv "data" (some zeroConfig)).1.albaConf.map
        albaconfig.Config.DatabaseCache = some c ∧ 16 ≤ c) := by
  have h0 : (NewNode sampleEnv "data" (some zeroConfig)).1.albaConf.map
      albaconfig.Config.DatabaseCache = some 0 := by decide
  refine ⟨rfl, h0, by decide, ?_⟩
  rintro ⟨c, hc, h16⟩
  rw [h0] at hc
  have hc0 : (0 : Int) = c := Option.some.inj hc
  omega

theorem fillDefaults_BootstrapNodes {Cfg Stack Backend : Type} (env : Env Cfg Stack Backend)
    (cfg : NodeConfig) :
    (fillDefaults env (some cfg)).BootstrapNodes =
      if cfg.BootstrapNodes.isNone || cfg.BootstrapNodes.map Enodes.Size == some 0 then
        some env.FoundationBootnodes
      else cfg.BootstrapNodes := by
  unfold fillDefaults
  simp only
  split <;> split <;> simp_all [defaultNodeConfig]

theorem NewNode_P2P_BootstrapNodesV5 {Cfg Stack Backend : Type} (env : Env Cfg Stack Backend)
    (datadir : String) (cfg : NodeConfig) :
    (NewNode env datadir (some cfg)).1.nodeConf.P2P.BootstrapNodesV5 =
      (((fillDefaults env (some cfg)).BootstrapNodes.map Enodes.nodes).getD []) := by
  rw [NewNode_nodeConf]
  rfl

/-- C11. `NewNodeConfig` returns the defaults field by field (`MaxPeers` 25,
`AlbaEnabled` true, `AlbaNetworkID` 1, `AlbaDatabaseCache` 16, the foundation
boot nodes); `NewNode` with a nil configuration is `NewNode` with
`NewNodeConfig()`; in a partial configuration a `MaxPeers` of 0 and boot nodes
that are nil or of size 0 are replaced by the defaults, while a non-zero
`MaxPeers` and a non-empty list of boot nodes are used as given. -/
theorem NewNode_fills_defaults {Cfg Stack Backend : Type} (env : Env Cfg Stack Backend)
    (datadir : String) (cfg : NodeConfig) (b : Enodes) :
    NewNodeConfig env = defaultNodeConfig env ∧
    (NewNodeConfig env).MaxPeers = 25 ∧
    (NewNodeConfig env).AlbaEnabled = true ∧
    (NewNodeConfig env).AlbaNetworkID = 1 ∧
    (NewNodeConfig env).AlbaDatabaseCache = 16 ∧
    (NewNodeConfig env).BootstrapNodes = some env.FoundationBootnodes ∧
    NewNode env datadir none = NewNode env datadir (some (NewNodeConfig env)) ∧
    (cfg.MaxPeers = 0 →
      (NewNode env datadir (some cfg)).1.nodeConf.P2P.MaxPeers = (defaultNodeConfig env).MaxPeers) ∧
    (cfg.MaxPeers ≠ 0 →
      (NewNode env datadir (some cfg)).1.nodeConf.P2P.MaxPeers = cfg.MaxPeers) ∧
    (cfg.BootstrapNodes = none →
      (NewNode env datadir (some cfg)).1.nodeConf.P2P.BootstrapNodesV5 =
        env.FoundationBootnodes.nodes) ∧
    (cfg.BootstrapNodes = some b → b.Size = 0 →
      (NewNode env datadir (some cfg)).1.nodeConf.P2P.BootstrapNodesV5 =
        env.FoundationBootnodes.nodes) ∧
    (cfg.BootstrapNodes = some b → b.Size ≠ 0 →
      (NewNode env datadir (some cfg)).1.nodeConf.P2P.BootstrapNodesV5 = b.nodes) := by
  refine ⟨rfl, rfl, rfl, rfl, rfl, rfl, rfl, ?_, ?_, ?_, ?_, ?_⟩
  · intro h0
    rw [NewNode_P2P_MaxPeers, if_pos h0]
    rfl
  · intro h0
    rw [NewNode_P2P_MaxPeers, if_neg h0]
  · intro hb
    rw [NewNode_P2P_BootstrapNodesV5, fillDefaults_BootstrapNodes]
    simp [hb]
  · intro hb hs
    rw [NewNode_P2P_BootstrapNodesV5, fillDefaults_BootstrapNodes]
    simp [hb, hs]
  · intro hb hs
    rw [NewNode_P2P_BootstrapNodesV5, fillDefaults_BootstrapNodes]
    simp [hb, hs]

theorem NewNode_fills_defaults_witness :
    (NewNode sampleEnv "data" (some zeroConfig)).1.nodeConf.P2P.MaxPeers = 25 ∧
    (NewNode sampleEnv "data" (some zeroConfig)).1.nodeConf.P2P.BootstrapNodesV5 =
      [{ url := "enode://a@1.1.1.1:30303" }, { url := "enode://b@2.2.2.2:30303" }] ∧
    (NewNode sampleEnv "data" (some ropstenConfig)).1.nodeConf.P2P.MaxPeers = 3 ∧
    (NewNode sampleEnv "data" (some ropstenConfig)).1.nodeConf.P2P.BootstrapNodesV5 =
      [{ url := "enode://c@3.3.3.3:30303" }] ∧
    (NewNode sampleEnv "data"
      (some { ropstenConfig with BootstrapNodes := some { nodes := [] } })).1.nodeConf.P2P.BootstrapNodesV5 =
      [{ url := "enode://a@1.1.1.1:30303" }, { url := "enode://b@2.2.2.2:30303" }] :=
  ⟨(NewNode_fills_defaults sampleEnv "data" zeroConfig { nodes := [] }).2.2.2.2.2.2.2.1 rfl,
   (NewNode_fills_defaults sampleEnv "data" zeroConfig { nodes := [] }).2.2.2.2.2.2.2.2.2.1 rfl,
   (NewNode_fills_defaults sampleEnv "data" ropstenConfig
      { nodes := [{ url := "enode://c@3.3.3.3:30303" }] }).2.2.2.2.2.2.2.2.1 (by decide),
   (NewNode_fills_defaults sampleEnv "data" ropstenConfig
      { nodes := [{ url := "enode://c@3.3.3.3:30303" }] }).2.2.2.2.2.2.2.2.2.2.2 rfl (by decide),
   (NewNode_fills_defaults sampleEnv "data"
      { ropstenConfig with BootstrapNodes := some { nodes := [] } }
      { nodes := [] }).2.2.2.2.2.2.2.2.2.2.1 rfl rfl⟩

theorem fillDefaults_keeps {Cfg Stack Backend : Type} (env : Env Cfg Stack Backend)
    (cfg : NodeConfig) :
    (fillDefaults env (some cfg)).AlbaGenesis = cfg.AlbaGenesis ∧
    (fillDefaults env (some cfg)).AlbaNetworkID = cfg.AlbaNetworkID ∧
    (fillDefaults env (some cfg)).AlbaEnabled = cfg.AlbaEnabled := by
  unfold fillDefaults
  simp only
  split <;> split <;> exact ⟨rfl, rfl, rfl⟩

theorem loadGenesis_empty {Cfg Stack Backend : Type} (env : Env Cfg Stack Backend)
    (config : NodeConfig) (h : config.AlbaGenesis = "") :
    loadGenesis env config = Except.ok (config, none) := by
  unfold loadGenesis
  simp [h]

theorem loadGenesis_testnet {Cfg Stack Backend : Type} (env : Env Cfg Stack Backend)
    (config : NodeConfig) (g : Genesis Cfg) (net : String) (c : Cfg) (id : Int)
    (hdist : [env.RopstenGenesis, env.SepoliaGenesis, env.RinkebyGenesis,
      env.GoerliGenesis].Nodup)
    (hmem : (net, c, id) ∈ testnets env) (hne : config.AlbaGenesis ≠ "")
    (hnet : config.AlbaGenesis = net) (hjson : env.Unmarshal config.AlbaGenesis = Except.ok g) :
    loadGenesis env config =
      Except.ok
        ({ config with
            AlbaNetworkID := if config.AlbaNetworkID = 1 then id else config.AlbaNetworkID },
         some { g with Config := some c }) := by
  unfold loadGenesis
  rw [if_pos hne, hjson]
  dsimp only
  simp only [List.nodup_cons, List.mem_cons, List.mem_singleton, not_or, List.not_mem_nil,
    not_false_eq_true, List.nodup_nil, and_true] at hdist
  obtain ⟨⟨hrs, hrr, hrg⟩, ⟨hsr, hsg⟩, hrig⟩ := hdist
  simp only [testnets, List.mem_cons, List.mem_singleton, Prod.mk.injEq, List.not_mem_nil,
    or_false] at hmem
  have hsr' : ¬ env.SepoliaGenesis = env.RopstenGenesis := fun h => hrs h.symm
  have hrr' : ¬ env.RinkebyGenesis = env.RopstenGenesis := fun h => hrr h.symm
  have hgr' : ¬ env.GoerliGenesis = env.RopstenGenesis := fun h => hrg h.symm
  have hrs' : ¬ env.RinkebyGenesis = env.SepoliaGenesis := fun h => hsr h.symm
  have hgs' : ¬ env.GoerliGenesis = env.SepoliaGenesis := fun h => hsg h.symm
  have hgri' : ¬ env.GoerliGenesis = env.RinkebyGenesis := fun h => hrig h.symm
  rcases hmem with ⟨h1, h2, h3⟩ | ⟨h1, h2, h3⟩ | ⟨h1, h2, h3⟩ | ⟨h1, h2, h3⟩
  all_goals subst h1 h2 h3
  all_goals simp [hardCode, hnet, hrs, hrr, hrg, hsr, hsg, hrig, hsr', hrr', hgr', hrs', hgs', hgri']

theorem NewNode_built {Cfg Stack Backend : Type} (env : Env Cfg Stack Backend)
    (datadir : String) (config : Option NodeConfig) (stack : Stack) (config' : NodeConfig)
    (genesis : Option (Genesis Cfg))
    (hnode : env.nodeNew (nodeConfOf env datadir (fillDefaults env config)) = Except.ok stack)
    (hload : loadGenesis env (fillDefaults env config) = Except.ok (config', genesis)) :
    (NewNode env datadir config).1.config = config' ∧
    (NewNode env datadir config).1.genesis = genesis ∧
    (config'.AlbaEnabled = true →
      (NewNode env datadir config).1.albaConf = some (albaConfOf env config' genesis)) := by
  unfold NewNode
  simp only [hnode, hload]
  refine ⟨?_, ?_, ?_⟩
  · repeat' split
    all_goals rfl
  · repeat' split
    all_goals rfl
  · intro he
    simp only [he, if_true]
    repeat' split
    all_goals rfl

theorem NewNode_testnet {Cfg Stack Backend : Type} (env : Env Cfg Stack Backend)
    (datadir : String) (cfg : NodeConfig) (g : Genesis Cfg) (stack : Stack)
    (net : String) (c : Cfg) (id : Int)
    (hnode : env.nodeNew (nodeConfOf env datadir (fillDefaults env (some cfg))) = Except.ok stack)
    (hdist : [env.RopstenGenesis, env.SepoliaGenesis, env.RinkebyGenesis,
      env.GoerliGenesis].Nodup)
    (hmem : (net, c, id) ∈ testnets env) (hne : cfg.AlbaGenesis ≠ "")
    (hjson : env.Unmarshal cfg.AlbaGenesis = Except.ok g) (hnet : cfg.AlbaGenesis = net) :
    (NewNode env datadir (some cfg)).1.config.AlbaNetworkID =
      (if cfg.AlbaNetworkID = 1 then id else cfg.AlbaNetworkID) ∧
    (cfg.AlbaEnabled = true →
      (NewNode env datadir (some cfg)).1.network =
        some (toUint64 (if cfg.AlbaNetworkID = 1 then id else cfg.AlbaNetworkID),
              some { g with Config := some c })) := by
  obtain ⟨kg, kn, ke⟩ := fillDefaults_keeps env cfg
  have hload := loadGenesis_testnet env (fillDefaults env (some cfg)) g net c id hdist hmem
    (by rw [kg]; exact hne) (by rw [kg]; exact hnet) (by rw [kg]; exact hjson)
  obtain ⟨hc, _, ha⟩ := NewNode_built env datadir (some cfg) stack _ _ hnode hload
  refine ⟨?_, ?_⟩
  · rw [hc, kn]
  · intro hen
    rw [Built.network, ha (by simpa [ke] using hen)]
    simp [albaConfOf, kn]

/-- C13. With `node.New` succeeding and the four test networks' genesis strings
distinct: when `AlbaGenesis` is non-empty, parses, and is the Ropsten, Sepolia,
Rinkeby or Goerli genesis, `NewNode` turns a network id of 1 into 3, 11155111,
4 or 5 respectively and leaves any other network id unchanged, and the genesis
handed to the backend carries the matching hard-coded chain configuration;
when `AlbaGenesis` is empty the genesis handed to the backend is nil and the
network id is unchanged. -/
theorem NewNode_hard_codes_testnets {Cfg Stack Backend : Type} (env : Env Cfg Stack Backend)
    (datadir : String) (cfg : NodeConfig) (g : Genesis Cfg) (stack : Stack)
    (hnode : env.nodeNew (nodeConfOf env datadir (fillDefaults env (some cfg))) = Except.ok stack)
    (hdist : [env.RopstenGenesis, env.SepoliaGenesis, env.RinkebyGenesis,
      env.GoerliGenesis].Nodup) :
    (cfg.AlbaGenesis ≠ "" → env.Unmarshal cfg.AlbaGenesis = Except.ok g →
      (cfg.AlbaGenesis = env.RopstenGenesis →
        (NewNode env datadir (some cfg)).1.config.AlbaNetworkID =
          (if cfg.AlbaNetworkID = 1 then 3 else cfg.AlbaNetworkID) ∧
        (cfg.AlbaEnabled = true →
          (NewNode env datadir (some cfg)).1.network =
            some (toUint64 (if cfg.AlbaNetworkID = 1 then 3 else cfg.AlbaNetworkID),
                  some { g with Config := some env.RopstenChainConfig }))) ∧
      (cfg.AlbaGenesis = env.SepoliaGenesis →
        (NewNode env datadir (some cfg)).1.config.AlbaNetworkID =
          (if cfg.AlbaNetworkID = 1 then 11155111 else cfg.AlbaNetworkID) ∧
        (cfg.AlbaEnabled = true →
          (NewNode env datadir (some cfg)).1.network =
            some (toUint64 (if cfg.AlbaNetworkID = 1 then 11155111 else cfg.AlbaNetworkID),
                  some { g with Config := some env.SepoliaChainConfig }))) ∧
      (cfg.AlbaGenesis = env.RinkebyGenesis →
        (NewNode env datadir (some cfg)).1.config.AlbaNetworkID =
          (if cfg.AlbaNetworkID = 1 then 4 else cfg.AlbaNetworkID) ∧
        (cfg.AlbaEnabled = true →
          (NewNode env datadir (some cfg)).1.network =
            some (toUint64 (if cfg.AlbaNetworkID = 1 then 4 else cfg.AlbaNetworkID),
                  some { g with Config := some env.RinkebyChainConfig }))) ∧
      (cfg.AlbaGenesis = env.GoerliGenesis →
        (NewNode env datadir (some cfg)).1.config.AlbaNetworkID =
          (if cfg.AlbaNetworkID = 1 then 5 else cfg.AlbaNetworkID) ∧
        (cfg.AlbaEnabled = true →
          (NewNode env datadir (some cfg)).1.network =
            some (toUint64 (if cfg.AlbaNetworkID = 1 then 5 else cfg.AlbaNetworkID),
                  some { g with Config := some env.GoerliChainConfig })))) ∧
    (cfg.AlbaGenesis = "" →
      (NewNode env datadir (some cfg)).1.config.AlbaNetworkID = cfg.AlbaNetworkID ∧
      (NewNode env datadir (some cfg)).1.genesis = none ∧
      (cfg.AlbaEnabled = true →
        (NewNode env datadir (some cfg)).1.network =
          some (toUint64 cfg.AlbaNetworkID, none))) := by
  constructor
  · intro hne hjson
    refine ⟨?_, ?_, ?_, ?_⟩
    · exact NewNode_testnet env datadir cfg g stack _ _ _ hnode hdist
        (by simp [testnets]) hne hjson
    · exact NewNode_testnet env datadir cfg g stack _ _ _ hnode hdist
        (by simp [testnets]) hne hjson
    · exact NewNode_testnet env datadir cfg g stack _ _ _ hnode hdist
        (by simp [testnets]) hne hjson
    · exact NewNode_testnet env datadir cfg g stack _ _ _ hnode hdist
        (by simp [testnets]) hne hjson
  · intro hempty
    obtain ⟨kg, kn, ke⟩ := fillDefaults_keeps env cfg
    have hload := loadGenesis_empty env (fillDefaults env (some cfg)) (by rw [kg]; exact hempty)
    obtain ⟨hc, hg, ha⟩ := NewNode_built env datadir (some cfg) stack _ _ hnode hload
    refine ⟨?_, hg, ?_⟩
    · rw [hc, kn]
    · intro hen
      rw [Built.network, ha (by simpa [ke] using hen)]
      simp [albaConfOf, kn]

theorem NewNode_hard_codes_testnets_witness :
    (NewNode sampleEnv "data" (some ropstenConfig)).1.config.AlbaNetworkID = 3 ∧
    (NewNode sampleEnv "data" (some ropstenConfig)).1.network =
      some (3, some { Config := some 3, body := "ropsten" }) ∧
    (NewNode sampleEnv "data"
      (some { ropstenConfig with AlbaGenesis := "goerli", AlbaNetworkID := 7 })).1.network =
      some (7, some { Config := some 5, body := "goerli" }) ∧
    (NewNode sampleEnv "data" (some zeroConfig)).1.network = some (1, none) :=
  ⟨((NewNode_hard_codes_testnets sampleEnv "data" ropstenConfig
      { Config := none, body := "ropsten" } () rfl (by decide)).1 (by decide) rfl).1 rfl |>.1,
   ((NewNode_hard_codes_testnets sampleEnv "data" ropstenConfig
      { Config := none, body := "ropsten" } () rfl (by decide)).1 (by decide) rfl).1 rfl |>.2 rfl,
   ((NewNode_hard_codes_testnets sampleEnv "data"
      { ropstenConfig with AlbaGenesis := "goerli", AlbaNetworkID := 7 }
      { Config := none, body := "goerli" } () rfl (by decide)).1 (by decide) rfl).2.2.2 rfl
        |>.2 rfl,
   ((NewNode_hard_codes_testnets sampleEnv "data" zeroConfig
      { Config := none, body := "" } () rfl (by decide)).2 rfl).2.2 rfl⟩

theorem hardCode_enabled {Cfg : Type} (net : String) (c : Cfg) (id : Int)
    (st : NodeConfig × Genesis Cfg) :
    (hardCode net c id st).1.AlbaEnabled = st.1.AlbaEnabled := by
  unfold hardCode
  split <;> rfl

theorem loadGenesis_enabled {Cfg Stack Backend : Type} (env : Env Cfg Stack Backend)
    (config config' : NodeConfig) (genesis : Option (Genesis Cfg))
    (h : loadGenesis env config = Except.ok (config', genesis)) :
    config'.AlbaEnabled = config.AlbaEnabled := by
  unfold loadGenesis at h
  split at h
  · split at h
    · cases h
    · simp only [Except.ok.injEq, Prod.mk.injEq] at h
      rw [← h.1]
      simp only [hardCode_enabled]
  · simp only [Except.ok.injEq, Prod.mk.injEq] at h
    rw [← h.1]

/-- C10, as the code has it. `NewNode` applies no floor to the database cache:
whatever configuration it hands to `les.New` has `DatabaseCache` equal to the
configured `AlbaDatabaseCache`; with `AlbaEnabled` set, `node.New` succeeding
and the genesis loading, a configuration is handed on, and its
`DatabaseCache` is at least 16 exactly when `AlbaDatabaseCache` is, as it is
for the default of 16. -/
theorem NewNode_hands_cache_as_configured {Cfg Stack Backend : Type}
    (env : Env Cfg Stack Backend) (datadir : String) (cfg : NodeConfig) (stack : Stack)
    (config' : NodeConfig) (genesis : Option (Genesis Cfg))
    (hen : cfg.AlbaEnabled = true)
    (hnode : env.nodeNew (nodeConfOf env datadir (fillDefaults env (some cfg))) = Except.ok stack)
    (hload : loadGenesis env (fillDefaults env (some cfg)) = Except.ok (config', genesis)) :
    (∀ conf, (NewNode env datadir (some cfg)).1.albaConf = some conf →
      conf.DatabaseCache = cfg.AlbaDatabaseCache) ∧
    (NewNode env datadir (some cfg)).1.albaConf.map albaconfig.Config.DatabaseCache =
      some cfg.AlbaDatabaseCache ∧
    ((∃ c : Int, (NewNode env datadir (some cfg)).1.albaConf.map
        albaconfig.Config.DatabaseCache = some c ∧ 16 ≤ c) ↔ 16 ≤ cfg.AlbaDatabaseCache) ∧
    (defaultNodeConfig env).AlbaDatabaseCache = 16 := by
  have hen' : config'.AlbaEnabled = true := by
    rw [loadGenesis_enabled env _ _ _ hload, (fillDefaults_keeps env cfg).2.2]
    exact hen
  have hconf := (NewNode_built env datadir (some cfg) stack config' genesis hnode hload).2.2 hen'
  have hcache : config'.AlbaDatabaseCache = cfg.AlbaDatabaseCache := by
    rw [loadGenesis_cache env _ _ _ hload, fillDefaults_cache]
  have hmap : (NewNode env datadir (some cfg)).1.albaConf.map albaconfig.Config.DatabaseCache =
      some cfg.AlbaDatabaseCache := by
    rw [hconf]
    simp [albaConfOf, hcache]
  refine ⟨fun conf hc => NewNode_albaConf_DatabaseCache env datadir cfg conf hc, hmap, ?_, rfl⟩
  rw [hmap]
  constructor
  · rintro ⟨c, hc, h16⟩
    have hcc : cfg.AlbaDatabaseCache = c := Option.some.inj hc
    omega
  · intro h16
    exact ⟨cfg.AlbaDatabaseCache, rfl, h16⟩

theorem NewNode_hands_cache_as_configured_witness :
    (NewNode sampleEnv "data" (some ropstenConfig)).1.albaConf.map
      albaconfig.Config.DatabaseCache = some 64 ∧
    (NewNode sampleEnv "data" (some { zeroConfig with AlbaDatabaseCache := 7 })).1.albaConf.map
      albaconfig.Config.DatabaseCache = some 7 :=
  ⟨(NewNode_hands_cache_as_configured sampleEnv "data" ropstenConfig ()
      { ropstenConfig with AlbaNetworkID := 3 } (some { Config := some 3, body := "ropsten" })
      rfl rfl rfl).2.1,
   (NewNode_hands_cache_as_configured sampleEnv "data" { zeroConfig with AlbaDatabaseCache := 7 }
      () (fillDefaults sampleEnv (some { zeroConfig with AlbaDatabaseCache := 7 })) none
      rfl rfl rfl).2.1⟩

end palba
